import Mathlib

/-!
Verification of the authentication/sync-status reconciliation view model of
the Playful Data Lab application (src/src/components/AuthPanel.jsx and the
syncHelpers of src/database.js).

Two embeddings are used:
* an untyped model of JavaScript values (`JSVal`) for the claims about
  exception behaviour of the raw property reads the readers perform on the
  external sync client, and
* a typed model (`Cloud`, `Identity`, `CloudState`, `PanelState`) of the
  values those reads yield, for the functional claims about the
  reconciliation formulas and the three command handlers.
-/

namespace PlayfulDataLab

/-- Model of a JavaScript runtime value, as far as the session and phase
readers can observe one: undefined, null, booleans, numbers, strings and
plain objects with named fields. -/
inductive JSVal where
  | undefined
  | jsNull
  | jbool (b : Bool)
  | num (n : Int)
  | str (s : String)
  | obj (fields : List (String × JSVal))

/-- JavaScript truthiness: undefined, null, false, 0 and the empty string
are falsy; every object is truthy. -/
def JSVal.truthy : JSVal → Bool
  | .undefined => false
  | .jsNull => false
  | .jbool b => b
  | .num n => n != 0
  | .str s => s != ""
  | .obj _ => true

/-- Strict equality of a JavaScript value with a string literal, as used by
the comparison with the sentinel in the session reader. -/
def JSVal.isStr : JSVal → String → Bool
  | .str s, t => s == t
  | _, _ => false

/-- Field lookup in a JavaScript object: a missing field reads as
undefined. -/
def lookupField (fields : List (String × JSVal)) (k : String) : JSVal :=
  match fields.find? (fun p => p.1 == k) with
  | some p => p.2
  | none => .undefined

/-- JavaScript property access base[k]: throws a TypeError when the base is
undefined or null; primitive bases are boxed and yield undefined for the
field names the readers use. -/
def JSVal.getProp : JSVal → String → Except String JSVal
  | .undefined, _ => .error "TypeError"
  | .jsNull, _ => .error "TypeError"
  | .obj fields, k => .ok (lookupField fields k)
  | _, _ => .ok .undefined

/-- JavaScript optional chaining base?.k: yields undefined instead of
throwing when the base is nullish. -/
def JSVal.getPropOpt : JSVal → String → Except String JSVal
  | .undefined, _ => .ok .undefined
  | .jsNull, _ => .ok .undefined
  | v, k => v.getProp k

/-- Result of a possibly-throwing JavaScript computation: true when it
returned normally. -/
def isOkE : Except String α → Bool
  | .ok _ => true
  | .error _ => false

/-- Sequencing of possibly-throwing JavaScript computations: an exception
in the first step propagates, a normal result feeds the continuation. -/
def tryBind (r : Except String α) (f : α → Except String β) : Except String β :=
  match r with
  | .ok v => f v
  | .error e => .error e

/-- Untyped embedding of syncHelpers.getCurrentUser in database.js: it
reads db.cloud.currentUserId and db.cloud.currentUser?.email and classifies
the session by truthiness of the id and comparison with the sentinel
string, with the exception behaviour of each property access explicit. -/
def getCurrentUserRaw (cloud : JSVal) : Except String (JSVal × JSVal × Bool) :=
  tryBind (cloud.getProp "currentUserId") fun userId =>
    let isReallyLoggedIn := userId.truthy && !(userId.isStr "unauthorized")
    tryBind (cloud.getProp "currentUser") fun currentUser =>
      tryBind (currentUser.getPropOpt "email") fun email =>
        .ok (userId, email, isReallyLoggedIn)

/-- Untyped embedding of the AuthPanel phase read: db.cloud.syncState falls
back to db.cloud.persistedSyncState and then to an empty object, and a
falsy phase field falls back to the string literal unknown. -/
def readPhaseRaw (cloud : JSVal) : Except String JSVal :=
  tryBind (cloud.getProp "syncState") fun live =>
    tryBind (cloud.getProp "persistedSyncState") fun persisted =>
      let cloudState := if live.truthy then live else if persisted.truthy then persisted else .obj []
      tryBind (cloudState.getProp "phase") fun phase =>
        .ok (if phase.truthy then phase else .str "unknown")

/-- Typed model of the user object db.cloud.currentUser: the panel only
reads its email field. -/
structure User where
  email : Option String
deriving DecidableEq, Repr

/-- Typed model of a sync state object (db.cloud.syncState or
db.cloud.persistedSyncState): the fields the panel reads. -/
structure CloudState where
  phase : Option String
  lastSync : Option Nat
deriving DecidableEq, Repr

/-- Typed model of the fields of db.cloud that the readers consult. -/
structure Cloud where
  currentUserId : Option String
  currentUser : Option User
  syncState : Option CloudState
  persistedSyncState : Option CloudState
deriving DecidableEq, Repr

/-- Identity record returned by syncHelpers.getCurrentUser. -/
structure Identity where
  id : Option String
  email : Option String
  isLoggedIn : Bool
deriving DecidableEq, Repr

/-- JavaScript truthiness of an optional string: undefined and the empty
string are falsy. -/
def truthyStr : Option String → Bool
  | none => false
  | some s => s != ""

/-- Typed embedding of syncHelpers.getCurrentUser from database.js. -/
def getCurrentUser (cloud : Cloud) : Identity :=
  let userId := cloud.currentUserId
  let isReallyLoggedIn := truthyStr userId && !(userId == some "unauthorized")
  { id := userId
    email := cloud.currentUser.bind User.email
    isLoggedIn := isReallyLoggedIn }

/-- Fallback chain of the AuthPanel effect: the live state object when
present, otherwise the persisted one, otherwise an empty record. -/
def chooseCloudState (live persisted : Option CloudState) : CloudState :=
  match live with
  | some st => st
  | none =>
    match persisted with
    | some st => st
    | none => { phase := none, lastSync := none }

/-- Defaulting rule of the AuthPanel effect: a missing or falsy phase field
becomes the string literal unknown. -/
def phaseOf (st : CloudState) : String :=
  match st.phase with
  | some p => if p == "" then "unknown" else p
  | none => "unknown"

/-- Typed embedding of the phase reader as invoked by the panel on the
client state. -/
def readCloudState (cloud : Cloud) : CloudState :=
  chooseCloudState cloud.syncState cloud.persistedSyncState

/-- Phase string the panel derives from the client state. -/
def readPhase (cloud : Cloud) : String :=
  phaseOf (readCloudState cloud)

/-- Sync status record built by the AuthPanel reconciliation effect. The
catch branch builds it without the lastSync and isLoggedIn fields, so both
are optional. -/
structure SyncStatus where
  isOnline : Bool
  isSyncing : Bool
  lastSync : Option Nat
  phase : String
  isLoggedIn : Option Bool
deriving DecidableEq, Repr

/-- Identity substituted by the catch branch of the reconciliation
effect. -/
def errorIdentity : Identity := { id := none, email := none, isLoggedIn := false }

/-- Sync status substituted by the catch branch of the reconciliation
effect. -/
def errorStatus : SyncStatus :=
  { isOnline := false, isSyncing := false, lastSync := none, phase := "error", isLoggedIn := none }

/-- Try branch of the AuthPanel useEffect, as a function of the session
reader result and the two raw state objects. -/
def reconcileBody (user : Identity) (live persisted : Option CloudState) : Identity × SyncStatus :=
  let isReallyLoggedIn := user.isLoggedIn && !(user.id == some "unauthorized")
  let cloudState := chooseCloudState live persisted
  let phase := phaseOf cloudState
  ({ user with isLoggedIn := isReallyLoggedIn },
   { isOnline := phase == "online" || (isReallyLoggedIn && phase == "unknown")
     isSyncing := phase == "syncing"
     lastSync := cloudState.lastSync
     phase := phase
     isLoggedIn := some isReallyLoggedIn })

/-- Whole reconciliation pass with its catch branch: a throwing read on
either side is absorbed and replaced by the fallback identity and the
error status. -/
def reconcilePass (userRes : Except String Identity)
    (stateRes : Except String (Option CloudState × Option CloudState)) :
    Identity × SyncStatus :=
  match userRes, stateRes with
  | .ok user, .ok (live, persisted) => reconcileBody user live persisted
  | _, _ => (errorIdentity, errorStatus)

/-- Reconciliation pass on a well-formed client state, where both reads
succeed. -/
def reconcileOk (cloud : Cloud) : Identity × SyncStatus :=
  reconcileBody (getCurrentUser cloud) cloud.syncState cloud.persistedSyncState

/-- Error value carried by a rejected external call: the message field the
handlers interpolate. -/
structure JsError where
  message : String
deriving DecidableEq, Repr

/-- View state touched by the three command handlers of the panel. -/
structure PanelState where
  email : String
  isLoading : Bool
  message : String
deriving DecidableEq, Repr

/-- Model of the JavaScript string trim: leading and trailing whitespace
characters are removed. -/
def jsTrim (s : String) : String :=
  String.mk (((s.data.dropWhile Char.isWhitespace).reverse.dropWhile Char.isWhitespace).reverse)

/-- Embedding of syncHelpers.signIn from database.js: the email is handed
verbatim to db.cloud.login and a failure is logged and rethrown. -/
def syncHelpersSignIn (login : String → Except JsError Unit) (email : String) :
    Except JsError Unit :=
  match login email with
  | .ok v => .ok v
  | .error e => .error e

/-- State of the panel immediately before handleSignIn awaits the external
call: nothing on a blank trimmed email, otherwise busy set and message
cleared. -/
def handleSignInPre (s : PanelState) : PanelState :=
  if jsTrim s.email == "" then s
  else { s with isLoading := true, message := "" }

/-- State of the panel immediately before handleSignOut awaits the external
call: the busy flag is set and the message is not touched. -/
def handleSignOutPre (s : PanelState) : PanelState :=
  { s with isLoading := true }

/-- State of the panel immediately before handleForceSync awaits the
external call: the busy flag is set and the message is not touched. -/
def handleForceSyncPre (s : PanelState) : PanelState :=
  { s with isLoading := true }

/-- Embedding of handleSignIn: early return on a blank trimmed email, the
pre-await updates, the awaited external call and the finally clause. The
second component is the argument passed to the external login call, none
when no call is made. Exceptions of the call are absorbed into the message,
never rethrown. -/
def handleSignIn (s : PanelState) (result : Except JsError Unit) : PanelState × Option String :=
  if jsTrim s.email == "" then (s, none)
  else
    let s1 : PanelState := { s with isLoading := true, message := "" }
    let s2 : PanelState :=
      match result with
      | .ok _ => { s1 with message := "Check your email for the login link!", email := "" }
      | .error e => { s1 with message := "Sign in failed: " ++ e.message }
    ({ s2 with isLoading := false }, some s.email)

/-- Embedding of handleSignOut: busy set, awaited call, outcome mapped to a
message, finally clause clearing the busy flag. -/
def handleSignOut (s : PanelState) (result : Except JsError Unit) : PanelState :=
  let s1 : PanelState := { s with isLoading := true }
  let s2 : PanelState :=
    match result with
    | .ok _ => { s1 with message := "Signed out successfully" }
    | .error e => { s1 with message := "Sign out failed: " ++ e.message }
  { s2 with isLoading := false }

/-- Embedding of handleForceSync: busy set, awaited call, outcome mapped to
a message, finally clause clearing the busy flag. -/
def handleForceSync (s : PanelState) (result : Except JsError Unit) : PanelState :=
  let s1 : PanelState := { s with isLoading := true }
  let s2 : PanelState :=
    match result with
    | .ok _ => { s1 with message := "Sync triggered" }
    | .error e => { s1 with message := "Sync failed: " ++ e.message }
  { s2 with isLoading := false }

/-! Helper lemmas shared by the claim theorems. -/

/-- Exclusivity of the two flag formulas at the level of an arbitrary phase
string and logged-in flag. -/
theorem flags_exclusive_aux (L : Bool) (p : String) :
    ((p == "syncing") && ((p == "online") || (L && (p == "unknown")))) = false := by
  by_cases h : p = "syncing"
  · subst h
    cases L <;> decide
  · have hb : (p == "syncing") = false := by
      simp [h]
    simp [hb]

/-- Property access on an object never throws. -/
theorem getProp_obj (fields : List (String × JSVal)) (k : String) :
    (JSVal.obj fields).getProp k = .ok (lookupField fields k) := rfl

/-- Optional chaining never throws, whatever the base value is. -/
theorem getPropOpt_isOk (v : JSVal) (k : String) : isOkE (v.getPropOpt k) = true := by
  cases v <;> rfl

/-- Property access on a truthy base never throws. -/
theorem getProp_isOk_of_truthy (v : JSVal) (k : String) (h : v.truthy = true) :
    isOkE (v.getProp k) = true := by
  cases v <;> first | rfl | simp [JSVal.truthy] at h

/-- Reduction of the sequencing combinator on a normal result. -/
theorem tryBind_ok (v : α) (f : α → Except String β) : tryBind (.ok v) f = f v := rfl

/-- Sequencing of two computations that return normally returns
normally. -/
theorem isOkE_tryBind (r : Except String α) (f : α → Except String β)
    (hr : isOkE r = true) (hf : ∀ v, isOkE (f v) = true) : isOkE (tryBind r f) = true := by
  cases r with
  | ok v => exact hf v
  | error e => simp [isOkE] at hr

/-! Claim theorems. -/

/-- C1: for every identity produced by the session reader and every pair of
raw state objects, the reconciliation returns isSyncing equal to
(phase == "syncing") and isOnline equal to (phase == "online") OR
(isLoggedIn AND phase == "unknown"), where phase and isLoggedIn are the
fields of the produced status and identity. -/
theorem reconcile_flag_formulas (user : Identity) (live persisted : Option CloudState) :
    ((reconcileBody user live persisted).2.isSyncing =
      ((reconcileBody user live persisted).2.phase == "syncing")) ∧
    ((reconcileBody user live persisted).2.isOnline =
      (((reconcileBody user live persisted).2.phase == "online") ||
       ((reconcileBody user live persisted).1.isLoggedIn &&
        ((reconcileBody user live persisted).2.phase == "unknown")))) :=
  ⟨rfl, rfl⟩

/-- C2: the reconciliation rule never asserts isSyncing and isOnline
simultaneously true, for every input identity and every pair of raw state
objects. -/
theorem reconcile_not_both_flags (user : Identity) (live persisted : Option CloudState) :
    ((reconcileBody user live persisted).2.isSyncing &&
     (reconcileBody user live persisted).2.isOnline) = false :=
  flags_exclusive_aux (user.isLoggedIn && !(user.id == some "unauthorized"))
    (phaseOf (chooseCloudState live persisted))

/-- C3: the session reader classifies the caller as logged in exactly when
a user id is present (a nonempty string, per the truthiness test the code
performs) and differs from the sentinel "unauthorized"; with the sentinel
id the result is false whatever the email is. -/
theorem getCurrentUser_classification (cloud : Cloud) :
    ((getCurrentUser cloud).isLoggedIn = true ↔
      ∃ s, cloud.currentUserId = some s ∧ s ≠ "" ∧ s ≠ "unauthorized") ∧
    (cloud.currentUserId = some "unauthorized" →
      (getCurrentUser cloud).isLoggedIn = false) := by
  constructor
  · simp only [getCurrentUser, truthyStr, Bool.and_eq_true]
    cases h : cloud.currentUserId with
    | none => simp
    | some s =>
      simp only [h]
      constructor
      · rintro ⟨h1, h2⟩
        refine ⟨s, rfl, ?_, ?_⟩
        · simpa using h1
        · simpa using h2
      · rintro ⟨t, ht, h1, h2⟩
        cases ht
        constructor
        · simpa using h1
        · simpa using h2
  · intro h
    simp [getCurrentUser, h, truthyStr]

/-- Closed instance of the C3 theorem: the sentinel id with an email
present still yields a logged-out classification. -/
theorem getCurrentUser_classification_witness :
    (getCurrentUser ⟨some "unauthorized", some ⟨some "a@b.com"⟩, none, none⟩).isLoggedIn = false :=
  (getCurrentUser_classification ⟨some "unauthorized", some ⟨some "a@b.com"⟩, none, none⟩).2 rfl

/-- C4: the phase reader takes the live state object when present,
otherwise the persisted one, otherwise an empty record, and the derived
phase is the literal "unknown" whenever the chosen state has no phase field
set. -/
theorem readCloudState_fallback (cloud : Cloud) :
    (∀ st, cloud.syncState = some st → readCloudState cloud = st) ∧
    (cloud.syncState = none →
      ∀ st, cloud.persistedSyncState = some st → readCloudState cloud = st) ∧
    (cloud.syncState = none → cloud.persistedSyncState = none →
      readCloudState cloud = { phase := none, lastSync := none }) ∧
    ((readCloudState cloud).phase = none → readPhase cloud = "unknown") := by
  refine ⟨?_, ?_, ?_, ?_⟩
  · intro st h
    simp [readCloudState, chooseCloudState, h]
  · intro h1 st h2
    simp [readCloudState, chooseCloudState, h1, h2]
  · intro h1 h2
    simp [readCloudState, chooseCloudState, h1, h2]
  · intro h
    simp [readPhase, phaseOf, h]

/-- Closed instance of the C4 theorem: both state objects absent yields the
empty record and the unknown phase; a present live state is taken as is. -/
theorem readCloudState_fallback_witness :
    readCloudState ⟨some "alice", none, none, none⟩ = { phase := none, lastSync := none } ∧
    readPhase ⟨some "alice", none, none, none⟩ = "unknown" ∧
    readCloudState ⟨none, none, some ⟨some "online", some 5⟩, none⟩ =
      { phase := some "online", lastSync := some 5 } :=
  ⟨(readCloudState_fallback ⟨some "alice", none, none, none⟩).2.2.1 rfl rfl,
   (readCloudState_fallback ⟨some "alice", none, none, none⟩).2.2.2 rfl,
   (readCloudState_fallback ⟨none, none, some ⟨some "online", some 5⟩, none⟩).1
     ⟨some "online", some 5⟩ rfl⟩

/-- C5: over arbitrary, possibly malformed, field values of the external
client object, the session reader and the phase reader return normally
(never throw), and the fully absent client state is classified as not
logged in rather than reported as an error. -/
theorem readers_never_throw (fields : List (String × JSVal)) :
    isOkE (getCurrentUserRaw (.obj fields)) = true ∧
    isOkE (readPhaseRaw (.obj fields)) = true ∧
    getCurrentUserRaw (.obj []) = .ok (.undefined, .undefined, false) := by
  refine ⟨?_, ?_, rfl⟩
  · simp only [getCurrentUserRaw, getProp_obj, tryBind_ok]
    exact isOkE_tryBind _ _ (getPropOpt_isOk _ _) (fun v => rfl)
  · simp only [readPhaseRaw, getProp_obj, tryBind_ok]
    refine isOkE_tryBind _ _ ?_ (fun v => rfl)
    by_cases h1 : (lookupField fields "syncState").truthy = true
    · rw [if_pos h1]
      exact getProp_isOk_of_truthy _ _ h1
    · rw [if_neg h1]
      by_cases h2 : (lookupField fields "persistedSyncState").truthy = true
      · rw [if_pos h2]
        exact getProp_isOk_of_truthy _ _ h2
      · rw [if_neg h2]
        rfl

/-- C6: a throwing read on either side makes the pass produce exactly the
fallback identity with isLoggedIn false and the status with both flags
false and phase "error"; the exception itself is not propagated. -/
theorem reconcilePass_error_path (e : String)
    (userRes : Except String Identity)
    (stateRes : Except String (Option CloudState × Option CloudState)) :
    reconcilePass (.error e) stateRes = (errorIdentity, errorStatus) ∧
    reconcilePass userRes (.error e) = (errorIdentity, errorStatus) := by
  constructor
  · cases stateRes with
    | ok p => cases p; rfl
    | error f => rfl
  · cases userRes <;> rfl

/-- C7: each handler absorbs the outcome of its external call (the handlers
are total functions into the panel state, so no exception escapes): on
success the fixed success message for the command is set (and sign-in also
clears the email field), on failure the message interpolates the failure
description after the fixed action prefix, and on both paths the busy flag
is false after completion. The sign-in part assumes the local blank-email
guard passed. -/
theorem handlers_outcomes (s : PanelState) (e : JsError) (r : Except JsError Unit) :
    (jsTrim s.email ≠ "" →
      ((handleSignIn s (.ok ())).1.message = "Check your email for the login link!" ∧
       (handleSignIn s (.ok ())).1.email = "" ∧
       (handleSignIn s (.error e)).1.message = "Sign in failed: " ++ e.message ∧
       (handleSignIn s r).1.isLoading = false)) ∧
    ((handleSignOut s (.ok ())).message = "Signed out successfully") ∧
    ((handleSignOut s (.error e)).message = "Sign out failed: " ++ e.message) ∧
    ((handleSignOut s r).isLoading = false) ∧
    ((handleForceSync s (.ok ())).message = "Sync triggered") ∧
    ((handleForceSync s (.error e)).message = "Sync failed: " ++ e.message) ∧
    ((handleForceSync s r).isLoading = false) := by
  refine ⟨?_, rfl, rfl, ?_, rfl, rfl, ?_⟩
  · intro h
    have hb : (jsTrim s.email == "") = false := by
      simp [h]
    refine ⟨?_, ?_, ?_, ?_⟩
    · simp [handleSignIn, hb]
    · simp [handleSignIn, hb]
    · simp [handleSignIn, hb]
    · cases r <;> simp [handleSignIn, hb]
  · cases r <;> rfl
  · cases r <;> rfl

/-- Closed instance of the C7 theorem at a concrete state, a concrete
failure and both outcomes of each call. -/
theorem handlers_outcomes_witness :
    (handleSignIn ⟨"a@b.com", false, "old"⟩ (.ok ())).1.message =
      "Check your email for the login link!" ∧
    (handleSignIn ⟨"a@b.com", false, "old"⟩ (.ok ())).1.email = "" ∧
    (handleSignIn ⟨"a@b.com", false, "old"⟩ (.error ⟨"network down"⟩)).1.message =
      "Sign in failed: network down" ∧
    (handleSignIn ⟨"a@b.com", false, "old"⟩ (.ok ())).1.isLoading = false ∧
    (handleSignOut ⟨"", false, ""⟩ (.error ⟨"network down"⟩)).message =
      "Sign out failed: network down" ∧
    (handleForceSync ⟨"", false, ""⟩ (.error ⟨"network down"⟩)).message =
      "Sync failed: network down" := by
  have h := handlers_outcomes ⟨"a@b.com", false, "old"⟩ ⟨"network down"⟩ (.ok ())
  have hs := h.1 (by decide)
  have h2 := handlers_outcomes ⟨"", false, ""⟩ ⟨"network down"⟩ (.ok ())
  exact ⟨hs.1, hs.2.1, hs.2.2.1, hs.2.2.2, h2.2.2.1, h2.2.2.2.2.2.1⟩

/-- C8 counterexample: handleSignOut sets the busy flag before awaiting but
does not clear the message state; starting from a state with a nonempty
message, the pre-await message is unchanged and in particular not empty. -/
theorem signOutPre_keeps_message :
    (handleSignOutPre ⟨"", false, "old"⟩).message = "old" ∧
    ¬((handleSignOutPre ⟨"", false, "old"⟩).message = "") := by
  constructor
  · rfl
  · decide

/-- C8 amended: every handler sets the busy flag true before awaiting its
external call; signIn additionally clears the message state, while signOut
and forceSync leave the message unchanged until the call completes. -/
theorem handlers_pre_await (s : PanelState) :
    (jsTrim s.email ≠ "" →
      ((handleSignInPre s).isLoading = true ∧ (handleSignInPre s).message = "")) ∧
    (handleSignOutPre s).isLoading = true ∧
    (handleSignOutPre s).message = s.message ∧
    (handleForceSyncPre s).isLoading = true ∧
    (handleForceSyncPre s).message = s.message := by
  refine ⟨?_, rfl, rfl, rfl, rfl⟩
  intro h
  have hb : (jsTrim s.email == "") = false := by
    simp [h]
  constructor <;> simp [handleSignInPre, hb]

/-- Closed instance of the C8 amended theorem at a concrete state. -/
theorem handlers_pre_await_witness :
    (handleSignInPre ⟨"x@y.z", false, "m"⟩).isLoading = true ∧
    (handleSignInPre ⟨"x@y.z", false, "m"⟩).message = "" ∧
    (handleSignOutPre ⟨"x@y.z", false, "m"⟩).message = "m" := by
  have h := handlers_pre_await ⟨"x@y.z", false, "m"⟩
  have hs := h.1 (by decide)
  exact ⟨hs.1, hs.2, h.2.2.1⟩

/-- C9: with a blank trimmed email, handleSignIn makes no external call and
leaves the whole panel state unchanged. -/
theorem handleSignIn_blank_email (s : PanelState) (r : Except JsError Unit)
    (h : jsTrim s.email = "") :
    handleSignIn s r = (s, none) := by
  simp [handleSignIn, h]

/-- Closed instance of the C9 theorem: a whitespace-only email is a local
no-op. -/
theorem handleSignIn_blank_email_witness :
    handleSignIn ⟨"   ", false, "msg"⟩ (.ok ()) = (⟨"   ", false, "msg"⟩, none) :=
  handleSignIn_blank_email ⟨"   ", false, "msg"⟩ (.ok ()) (by decide)

/-- C10: with a nonblank trimmed email, handleSignIn forwards the original
untrimmed email string to the external login call, and syncHelpers.signIn
hands its argument verbatim to db.cloud.login. -/
theorem handleSignIn_forwards_verbatim (s : PanelState) (r : Except JsError Unit)
    (login : String → Except JsError Unit) (h : jsTrim s.email ≠ "") :
    (handleSignIn s r).2 = some s.email ∧
    syncHelpersSignIn login s.email = login s.email := by
  constructor
  · have hb : (jsTrim s.email == "") = false := by
      simp [h]
    cases r <;> simp [handleSignIn, hb]
  · cases hl : login s.email <;> simp [syncHelpersSignIn, hl]

/-- Closed instance of the C10 theorem: surrounding whitespace in the email
survives to the login call. -/
theorem handleSignIn_forwards_verbatim_witness :
    (handleSignIn ⟨" a@b.com ", false, ""⟩ (.ok ())).2 = some " a@b.com " :=
  (handleSignIn_forwards_verbatim ⟨" a@b.com ", false, ""⟩ (.ok ())
    (fun _ => .ok ()) (by decide)).1

end PlayfulDataLab
